import Mathlib

/-!
Verification development for the PDF data-scraping pipeline
(`app.py`, `document_extractor.py`).

Text is embedded as `List Char`.  Python string primitives (`strip`,
`split`, `replace`, `upper`, …) are translated directly; the regular
expressions appearing in the source are compiled, pattern by pattern,
into deterministic backtracking matchers written in continuation-passing
style (greedy quantifiers try the longest consumption first and
backtrack, exactly as the `re` module does on these patterns).
All inputs of interest are ASCII, so ASCII case conversion and the
ASCII whitespace/word classes model the Python behaviour.
File-system and pdfplumber/PyPDF2 effects are modelled by passing the
outcome of the read (a flag for "the PDF could be opened" and the list
of per-page extraction results) as explicit parameters.
-/

/-- Python's default whitespace set for `str.strip` and the regex class
matching whitespace (ASCII range). -/
def pyIsSpace (c : Char) : Bool :=
  c = ' ' || c = '\t' || c = '\n' || c = '\r' || c = '\x0b' || c = '\x0c'

/-- Python `str.strip()`: drop leading and trailing whitespace. -/
def pystrip (s : List Char) : List Char :=
  ((s.dropWhile pyIsSpace).reverse.dropWhile pyIsSpace).reverse

/-- Python `str.isalnum()` restricted to ASCII: letters and digits. -/
def pyIsAlnum (c : Char) : Bool :=
  c.isAlpha || c.isDigit

/-- Regex word character (ASCII): letters, digits, underscore. -/
def isWordChar (c : Char) : Bool :=
  pyIsAlnum c || c = '_'

/-- Python `str.split(sep)` for a one-character separator:
`"".split(c)` is `[""]`, and separators delimit (possibly empty) fields. -/
def splitOnChar (sep : Char) : List Char → List (List Char)
  | [] => [[]]
  | c :: rest =>
    if c = sep then [] :: splitOnChar sep rest
    else
      match splitOnChar sep rest with
      | [] => [[c]]
      | h :: t => (c :: h) :: t

/-- Worker of `pyReplace`: when `skip` is positive, the current
character belongs to an occurrence already replaced and is dropped;
otherwise an occurrence of `pat` starting here is replaced by `rep`
and the remaining `pat.length - 1` characters of the occurrence are
scheduled to be dropped. -/
def pyReplaceAux (pat rep : List Char) : Nat → List Char → List Char
  | _ + 1, [] => []
  | n + 1, _ :: rest => pyReplaceAux pat rep n rest
  | 0, [] => []
  | 0, c :: rest =>
    if pat ≠ [] && pat.isPrefixOf (c :: rest) then
      rep ++ pyReplaceAux pat rep (pat.length - 1) rest
    else
      c :: pyReplaceAux pat rep 0 rest

/-- Python `str.replace(pat, rep)`: replace every non-overlapping
occurrence of `pat`, scanning left to right.  (Only called with a
non-empty `pat` in this development; an empty `pat` is a no-op here.) -/
def pyReplace (pat rep s : List Char) : List Char :=
  pyReplaceAux pat rep 0 s

/-- Python substring membership `pat in s`: some (possibly empty)
contiguous run of `s` equals `pat`. -/
def isSubstringOf (pat : List Char) : List Char → Bool
  | [] => pat.isEmpty
  | c :: rest => pat.isPrefixOf (c :: rest) || isSubstringOf pat rest

/-- The sentinel placeholder string used for unavailable fields. -/
def sentinel : List Char := "Not Available".data

namespace App

/-- The OCR-confusion substitution table of `clean_gst_number`
(`src/app.py`), applied in insertion order: letter O to zero, letter I
to one, then the two-character misread `Z3` to `ZJ`. -/
def gstCorrections : List (List Char × List Char) :=
  [("O".data, "0".data), ("I".data, "1".data), ("Z3".data, "ZJ".data)]

/-- Normalisation pass of `clean_gst_number`: uppercase, strip, and
delete every character outside `[A-Z0-9]` (the `re.sub` on line 71). -/
def gstNormalize (s : List Char) : List Char :=
  (pystrip (s.map Char.toUpper)).filter (fun c => c.isUpper || c.isDigit)

/-- Application of all OCR corrections in table order (the loop on
lines 79-80 of `src/app.py`). -/
def gstCorrect (s : List Char) : List Char :=
  gstCorrections.foldl (fun acc pr => pyReplace pr.1 pr.2 acc) s

/-- The strict GST structural grammar of line 83 of `src/app.py`:
`^[0-9]{2}[A-Z]{5}[0-9]{4}[A-Z]{1}[1-9A-Z]{1}Z[A-Z0-9]{1}$`
(anchored full match of a 15-character token). -/
def gstValidGrammar : List Char → Bool
  | [a, b, c1, c2, c3, c4, c5, d1, d2, d3, d4, e, f, g, h] =>
    a.isDigit && b.isDigit &&
    c1.isUpper && c2.isUpper && c3.isUpper && c4.isUpper && c5.isUpper &&
    d1.isDigit && d2.isDigit && d3.isDigit && d4.isDigit &&
    e.isUpper && (('1' ≤ f && f ≤ '9') || f.isUpper) && g = 'Z' &&
    (h.isUpper || h.isDigit)
  | _ => false

/-- `clean_gst_number` from `src/app.py` (lines 65-87): empty/falsy
input yields `None`; otherwise the input is normalised and
OCR-corrected, and the corrected string is returned whether or not it
passes the strict length/grammar validation (both branches of the
final `if` return it). -/
def clean_gst_number (gst_text : List Char) : Option (List Char) :=
  if gst_text = [] then none
  else
    let t := gstCorrect (gstNormalize gst_text)
    if t.length = 15 && gstValidGrammar t then some t else some t

/-- Character class kept by the trailing-junk removal of
`clean_supplier_name`: `[A-Za-z0-9\s\-\)&]`. -/
def supplierKeepChar (c : Char) : Bool :=
  pyIsAlnum c || pyIsSpace c || c = '-' || c = ')' || c = '&'

/-- The test `re.search(r'\b[a-zA-Z]$', name)` of `clean_supplier_name`:
the string ends in a letter that forms a one-letter word (preceded by a
non-word character or the start of the string). -/
def trailingSingleLetter (s : List Char) : Bool :=
  match s.reverse with
  | [] => false
  | c :: rest =>
    c.isAlpha &&
      (match rest with
       | [] => true
       | d :: _ => !isWordChar d)

/-- Worker of `collapseSpaces`; `inRun` records that the scan is
inside a whitespace run whose replacement space has already been
emitted, so further whitespace of the run is swallowed. -/
def collapseAux : Bool → List Char → List Char
  | _, [] => []
  | inRun, c :: rest =>
    if pyIsSpace c then
      if inRun then collapseAux true rest
      else
        match rest with
        | [] => [c]
        | d :: _ =>
          if pyIsSpace d then ' ' :: collapseAux true rest
          else c :: collapseAux false rest
    else c :: collapseAux false rest

/-- `re.sub(r'\s{2,}', ' ', name)`: every (maximal, hence
non-overlapping) run of two or more whitespace characters becomes a
single space; a lone whitespace character is kept as it is. -/
def collapseSpaces (s : List Char) : List Char :=
  collapseAux false s

/-- `clean_supplier_name` from `src/app.py` (lines 89-109): strip,
remove the leading run of non-letters (`^[^A-Za-z]+`), remove the
trailing run of junk characters (`[^A-Za-z0-9\s\-\)&]+$`), chop a
trailing one-letter word, collapse repeated whitespace, strip. -/
def clean_supplier_name (name : List Char) : Option (List Char) :=
  if name = [] then none
  else
    let n1 := pystrip name
    let n2 := n1.dropWhile (fun c => !c.isAlpha)
    let n3 := (n2.reverse.dropWhile (fun c => !supplierKeepChar c)).reverse
    let n4 := if trailingSingleLetter n3 then pystrip n3.dropLast else n3
    let n5 := collapseSpaces n4
    some (pystrip n5)

end App

/-!
Backtracking regex combinators.

A compiled pattern is a function from a position in the subject string
(represented by the character just before the position, for `\b`, and
the remaining characters) to an optional match.  Combinators are in
continuation-passing style; greedy quantifiers consume as much as
possible and fall back one character at a time when the continuation
fails — the exploration order of Python's `re` backtracking engine on
the pattern shapes occurring in this code base.  Matching of literal
characters is case-insensitive throughout, which models the
`re.IGNORECASE` flag on the source patterns (for the case-sensitive
patterns in the source, every literal is a character unaffected by case
folding, so the same combinator is faithful there too).
-/

/-- A compiled pattern: given the previous character and the rest of
the subject, produce (captured text, new previous character, rest after
the match) for the match attempt anchored at this position. -/
abbrev Pat : Type := Option Char → List Char → Option (List Char × Option Char × List Char)

/-- Case-insensitive literal (CPS), non-capturing. -/
def litCI {α : Type} (lit : List Char) (prev : Option Char) (s : List Char)
    (k : Option Char → List Char → Option α) : Option α :=
  match lit, s with
  | [], _ => k prev s
  | _ :: _, [] => none
  | l :: ls, c :: cs => if c.toUpper = l.toUpper then litCI ls (some c) cs k else none

/-- Case-insensitive literal (CPS), passing the consumed subject
characters to the continuation. -/
def litCICap {α : Type} (lit : List Char) (prev : Option Char) (s : List Char)
    (k : List Char → Option Char → List Char → Option α) : Option α :=
  match lit, s with
  | [], _ => k [] prev s
  | _ :: _, [] => none
  | l :: ls, c :: cs =>
    if c.toUpper = l.toUpper then
      litCICap ls (some c) cs (fun cap p r => k (c :: cap) p r)
    else none

/-- Greedy `cls*` (CPS), non-capturing: longest consumption first, then
backtrack. -/
def starCls {α : Type} (cls : Char → Bool) (prev : Option Char) (s : List Char)
    (k : Option Char → List Char → Option α) : Option α :=
  match s with
  | [] => k prev []
  | c :: cs =>
    if cls c then
      match starCls cls (some c) cs k with
      | some r => some r
      | none => k prev (c :: cs)
    else k prev (c :: cs)

/-- Greedy `cls{lo,}` (CPS), passing the captured characters to the
continuation: longest consumption first, then backtrack, never fewer
than `lo` characters. -/
def repAtLeastCap {α : Type} (cls : Char → Bool) (lo : Nat) (prev : Option Char)
    (s : List Char) (k : List Char → Option Char → List Char → Option α) : Option α :=
  match s with
  | [] => if lo = 0 then k [] prev [] else none
  | c :: cs =>
    if cls c then
      match repAtLeastCap cls (lo - 1) (some c) cs (fun cap p r => k (c :: cap) p r) with
      | some r => some r
      | none => if lo = 0 then k [] prev (c :: cs) else none
    else if lo = 0 then k [] prev (c :: cs) else none

/-- Greedy `cls{lo,hi}` (CPS), passing the captured characters to the
continuation. -/
def repBoundedCap {α : Type} (cls : Char → Bool) (lo hi : Nat) (prev : Option Char)
    (s : List Char) (k : List Char → Option Char → List Char → Option α) : Option α :=
  match hi, s with
  | 0, _ => if lo = 0 then k [] prev s else none
  | _ + 1, [] => if lo = 0 then k [] prev [] else none
  | h + 1, c :: cs =>
    if cls c then
      match repBoundedCap cls (lo - 1) h (some c) cs (fun cap p r => k (c :: cap) p r) with
      | some r => some r
      | none => if lo = 0 then k [] prev (c :: cs) else none
    else if lo = 0 then k [] prev (c :: cs) else none

/-- Greedy `cls{lo,hi}` (CPS), non-capturing. -/
def repCls {α : Type} (cls : Char → Bool) (lo hi : Nat) (prev : Option Char)
    (s : List Char) (k : Option Char → List Char → Option α) : Option α :=
  repBoundedCap cls lo hi prev s (fun _ p r => k p r)

/-- Greedy `cls?` (CPS), non-capturing: prefer consuming one character. -/
def optCls {α : Type} (cls : Char → Bool) (prev : Option Char) (s : List Char)
    (k : Option Char → List Char → Option α) : Option α :=
  match s with
  | [] => k prev []
  | c :: cs =>
    if cls c then
      match k (some c) cs with
      | some r => some r
      | none => k prev (c :: cs)
    else k prev (c :: cs)

/-- The `\b` zero-width assertion: a word/non-word transition between
the previous character (string edge counts as non-word) and the next. -/
def wordB {α : Type} (prev : Option Char) (s : List Char)
    (k : Option Char → List Char → Option α) : Option α :=
  let pw := match prev with | some c => isWordChar c | none => false
  let nw := match s with | c :: _ => isWordChar c | [] => false
  if pw != nw then k prev s else none

/-- Ordered alternation (CPS) over capturing branches: try each branch
in turn with the shared continuation, as `re` does for `(a|b|…)`. -/
def altCap {α : Type}
    (ms : List (Option Char → List Char →
      (List Char → Option Char → List Char → Option α) → Option α))
    (prev : Option Char) (s : List Char)
    (k : List Char → Option Char → List Char → Option α) : Option α :=
  match ms with
  | [] => none
  | m :: rest =>
    match m prev s k with
    | some r => some r
    | none => altCap rest prev s k

/-- A sequence of case-insensitive literal words separated by `\s*`
(the shape `W1\s*W2\s*…` of the source label patterns), non-capturing. -/
def seqWordsCI {α : Type} : List (List Char) → Option Char → List Char →
    (Option Char → List Char → Option α) → Option α
  | [], prev, s, k => k prev s
  | [w], prev, s, k => litCI w prev s k
  | w :: w2 :: ws, prev, s, k =>
    litCI w prev s (fun p1 s1 =>
      starCls pyIsSpace p1 s1 (fun p2 s2 => seqWordsCI (w2 :: ws) p2 s2 k))

/-- As `seqWordsCI`, passing all consumed characters to the
continuation. -/
def seqWordsCICap {α : Type} : List (List Char) → Option Char → List Char →
    (List Char → Option Char → List Char → Option α) → Option α
  | [], prev, s, k => k [] prev s
  | [w], prev, s, k => litCICap w prev s k
  | w :: w2 :: ws, prev, s, k =>
    litCICap w prev s (fun c1 p1 s1 =>
      repAtLeastCap pyIsSpace 0 p1 s1 (fun c2 p2 s2 =>
        seqWordsCICap (w2 :: ws) p2 s2 (fun c3 p3 s3 => k (c1 ++ c2 ++ c3) p3 s3)))

/-- `re.search`: return the captured group of the leftmost match. -/
def searchFirst (p : Pat) : Option Char → List Char → Option (List Char)
  | prev, s =>
    match p prev s with
    | some (cap, _, _) => some cap
    | none =>
      match s with
      | [] => none
      | c :: cs => searchFirst p (some c) cs

/-- Worker of `findAll`, structurally recursive on a fuel bounding the
remaining subject length (each step consumes at least one character, so
the initial fuel `s.length + 1` is never exhausted; a hypothetical
empty match is treated as a one-character advance — the patterns of
this code base never match the empty string). -/
def findAllAux (p : Pat) : Nat → Option Char → List Char → List (List Char)
  | 0, _, _ => []
  | fuel + 1, prev, s =>
    match p prev s with
    | some (cap, p2, rest) =>
      if rest.length < s.length then cap :: findAllAux p fuel p2 rest
      else
        match s with
        | [] => []
        | c :: cs => findAllAux p fuel (some c) cs
    | none =>
      match s with
      | [] => []
      | c :: cs => findAllAux p fuel (some c) cs

/-- `re.findall`: captured groups of all non-overlapping matches,
scanning left to right and continuing after each match. -/
def findAll (p : Pat) (prev : Option Char) (s : List Char) : List (List Char) :=
  findAllAux p (s.length + 1) prev s

/-! Character classes of the source patterns. -/

/-- `[:\-\s]`, the separator class after the label words. -/
def sepCls (c : Char) : Bool := c = ':' || c = '-' || pyIsSpace c

/-- `[:\-]`. -/
def colonDashCls (c : Char) : Bool := c = ':' || c = '-'

/-- `\d`. -/
def digitCls (c : Char) : Bool := c.isDigit

/-- `[\d,]`. -/
def digitCommaCls (c : Char) : Bool := c.isDigit || c = ','

/-- `[\$?€]`, the currency class of the amount patterns. -/
def currencyCls (c : Char) : Bool := c = '$' || c = '?' || c = '€'

/-- `[0-9A-Z]` under `re.IGNORECASE`, and `[a-z0-9]` likewise. -/
def alnumCls (c : Char) : Bool := pyIsAlnum c

/-- `[A-Z0-9\/\-\._]` under `re.IGNORECASE` (document numbers). -/
def docnumCls (c : Char) : Bool :=
  pyIsAlnum c || c = '/' || c = '-' || c = '.' || c = '_'

/-- `[\/\-\.]`, the date separator class. -/
def dateSepCls (c : Char) : Bool := c = '/' || c = '-' || c = '.'

/-- `[^\n]`. -/
def notNlCls (c : Char) : Bool := c ≠ '\n'

/-- `[^\n,]`. -/
def notNlCommaCls (c : Char) : Bool := c ≠ '\n' && c ≠ ','

/-- `[,.]`. -/
def commaDotCls (c : Char) : Bool := c = ',' || c = '.'

/-- `[1-9]`. -/
def nonzeroDigitCls (c : Char) : Bool := '1' ≤ c && c ≤ '9'

/-- `[\+\(]`. -/
def phoneOpenCls (c : Char) : Bool := c = '+' || c = '('

/-- `[0-9 .\-\(\)]`, the phone-number body class. -/
def phoneBodyCls (c : Char) : Bool :=
  c.isDigit || c = ' ' || c = '.' || c = '-' || c = '(' || c = ')'

/-- `[A-Za-z0-9._%+-]`, the e-mail local-part class. -/
def emailLocalCls (c : Char) : Bool :=
  pyIsAlnum c || c = '.' || c = '_' || c = '%' || c = '+' || c = '-'

/-- `[A-Za-z0-9.-]`, the e-mail domain class. -/
def emailDomCls (c : Char) : Bool := pyIsAlnum c || c = '.' || c = '-'

/-- `[A-Z|a-z]`, the e-mail top-level-domain class (the source class
literally contains `|`). -/
def emailTldCls (c : Char) : Bool := c.isAlpha || c = '|'

namespace DocumentExtractor

/-- `clean_text_lines` (`src/document_extractor.py`, lines 105-112):
strip each line and keep the non-empty ones of length greater than 2. -/
def clean_text_lines (lines : List (List Char)) : List (List Char) :=
  lines.filterMap (fun l =>
    let t := pystrip l
    if t ≠ [] && t.length > 2 then some t else none)

/-- `detect_document_type` (lines 114-125); the `lines` parameter of
the source method is unused there and omitted here.  The helper
`hasKeyword` is the membership test `word in text.upper()`. -/
def hasKeyword (ws : List String) (text : List Char) : Bool :=
  ws.any (fun w => isSubstringOf w.data (text.map Char.toUpper))

/-- First keyword group of the classifier. -/
def challanKeywords : List String := ["DELIVERY CHALLAN", "DC NO", "CHALLAN NO"]

/-- Second keyword group of the classifier. -/
def taxInvoiceKeywords : List String := ["TAX INVOICE", "GST INVOICE"]

/-- Third keyword group of the classifier. -/
def invoiceKeywords : List String := ["INVOICE", "INV NO", "BILL NO"]

/-- The document-type classifier: ordered keyword groups, first match
wins, defaulting to `"Unknown Document"`. -/
def detect_document_type (text : List Char) : String :=
  if hasKeyword challanKeywords text then "Delivery Challan"
  else if hasKeyword taxInvoiceKeywords text then "Tax Invoice"
  else if hasKeyword invoiceKeywords text then "Invoice"
  else "Unknown Document"

/-- The constructor-installed `supplier_keywords` list. -/
def supplier_keywords : List String :=
  ["LIMITED", "LTD", "PVT", "PRIVATE", "CORP", "CORPORATION",
   "COMPANY", "CO.", "ELECTRONICS", "SOLUTIONS", "ENTERPRISES",
   "INDUSTRIES", "GROUP", "WORLDWIDE", "GLOBAL", "INTERNATIONAL"]

/-- Exclusion tokens of `extract_supplier_name`. -/
def supplierExcludes : List String := ["GST", "INVOICE", "CHALLAN", "DATE", "TO:"]

/-- Fallback loop of `extract_supplier_name` (lines 138-143): walk all
lines; at a line containing `GST` (uppercased), return the stripped
previous line when there is one of length greater than 5, otherwise
keep scanning. -/
def gstPrevLine (prevOpt : Option (List Char)) : List (List Char) → Option (List Char)
  | [] => none
  | line :: rest =>
    if isSubstringOf "GST".data (line.map Char.toUpper) then
      match prevOpt with
      | some prevLine =>
        if prevLine.length > 5 then some (pystrip prevLine)
        else gstPrevLine (some line) rest
      | none => gstPrevLine (some line) rest
    else gstPrevLine (some line) rest

/-- `extract_supplier_name` (lines 127-144); the `text` and `doc_type`
parameters of the source method are unused there and omitted here. -/
def extract_supplier_name (lines : List (List Char)) : Option (List Char) :=
  match (lines.take 10).find? (fun line =>
      let u := line.map Char.toUpper
      supplier_keywords.any (fun kw => isSubstringOf kw.data u) &&
      line.length > 5 &&
      !(supplierExcludes.any (fun kw => isSubstringOf kw.data u))) with
  | some line => some (pystrip line)
  | none => gstPrevLine none lines

/-- Pattern `GST[:\-\s]*NO[:\-\s]*([0-9A-Z]{15})` (IGNORECASE). -/
def docGstStep1 : Pat := fun prev s =>
  litCI "GST".data prev s (fun p1 s1 =>
  starCls sepCls p1 s1 (fun p2 s2 =>
  litCI "NO".data p2 s2 (fun p3 s3 =>
  starCls sepCls p3 s3 (fun p4 s4 =>
  repBoundedCap alnumCls 15 15 p4 s4 (fun cap p5 s5 => some (cap, p5, s5))))))

/-- Pattern `GSTIN[:\-\s]*([0-9A-Z]{15})` (IGNORECASE). -/
def docGstStep2 : Pat := fun prev s =>
  litCI "GSTIN".data prev s (fun p1 s1 =>
  starCls sepCls p1 s1 (fun p2 s2 =>
  repBoundedCap alnumCls 15 15 p2 s2 (fun cap p3 s3 => some (cap, p3, s3))))

/-- Pattern `GST[:\-\s]*([0-9A-Z]{15})` (IGNORECASE). -/
def docGstStep3 : Pat := fun prev s =>
  litCI "GST".data prev s (fun p1 s1 =>
  starCls sepCls p1 s1 (fun p2 s2 =>
  repBoundedCap alnumCls 15 15 p2 s2 (fun cap p3 s3 => some (cap, p3, s3))))

/-- Pattern `([0-9A-Z]{2}[0-9A-Z]{13})` (IGNORECASE). -/
def docGstStep4 : Pat := fun prev s =>
  repBoundedCap alnumCls 2 2 prev s (fun c1 p1 s1 =>
  repBoundedCap alnumCls 13 13 p1 s1 (fun c2 p2 s2 => some (c1 ++ c2, p2, s2)))

/-- `extract_gst_number` (lines 146-163): for each pattern in order,
for each `findall` candidate in order, return the stripped candidate
when it has exactly 15 alphanumeric characters. -/
def extract_gst_number (text : List Char) : Option (List Char) :=
  [docGstStep1, docGstStep2, docGstStep3, docGstStep4].findSome? (fun pat =>
    (findAll pat none text).findSome? (fun m =>
      let gst_no := pystrip m
      if gst_no.length = 15 && gst_no.all pyIsAlnum then some gst_no else none))

/-- A label pattern `W1\s*W2\s*…[:\-\s]*(cls+)`: the shape shared by
the document-number, purpose and party-DC-number patterns. -/
def labeledTokenStep (ws : List (List Char)) (cls : Char → Bool) : Pat := fun prev s =>
  seqWordsCI ws prev s (fun p1 s1 =>
  starCls sepCls p1 s1 (fun p2 s2 =>
  repAtLeastCap cls 1 p2 s2 (fun cap p3 s3 => some (cap, p3, s3))))

/-- `extract_document_number` (lines 165-186): challan-specific or
invoice-specific label patterns, `re.search` each in order, accept a
stripped capture of length 3 to 50. -/
def extract_document_number (text : List Char) (doc_type : String) : Option (List Char) :=
  let patterns : List (List (List Char)) :=
    if doc_type = "Delivery Challan" then
      [["DC".data, "NO".data],
       ["DELIVERY".data, "CHALLAN".data, "NO".data],
       ["CHALLAN".data, "NO".data]]
    else
      [["INVOICE".data, "NO".data],
       ["INV".data, "NO".data],
       ["BILL".data, "NO".data]]
  patterns.findSome? (fun ws =>
    match searchFirst (labeledTokenStep ws docnumCls) none text with
    | some m =>
      let doc_no := pystrip m
      if 3 ≤ doc_no.length && doc_no.length ≤ 50 then some doc_no else none
    | none => none)

/-- The capture `([\d]{1,2}[\/\-\.][\d]{1,2}[\/\-\.][\d]{2,4})` of the
date patterns (CPS). -/
def dateCap {α : Type} (prev : Option Char) (s : List Char)
    (k : List Char → Option Char → List Char → Option α) : Option α :=
  repBoundedCap digitCls 1 2 prev s (fun c1 p1 s1 =>
  repBoundedCap dateSepCls 1 1 p1 s1 (fun c2 p2 s2 =>
  repBoundedCap digitCls 1 2 p2 s2 (fun c3 p3 s3 =>
  repBoundedCap dateSepCls 1 1 p3 s3 (fun c4 p4 s4 =>
  repBoundedCap digitCls 2 4 p4 s4 (fun c5 p5 s5 =>
    k (c1 ++ c2 ++ c3 ++ c4 ++ c5) p5 s5)))))

/-- A date pattern `W1\s*W2\s*…[:\-\s]*(date)`. -/
def dateStep (ws : List (List Char)) : Pat := fun prev s =>
  seqWordsCI ws prev s (fun p1 s1 =>
  starCls sepCls p1 s1 (fun p2 s2 =>
  dateCap p2 s2 (fun cap p3 s3 => some (cap, p3, s3))))

/-- `_validate_date` (lines 206-211): the anchored shape
`^\d{1,2}[\/\-\.]\d{1,2}[\/\-\.]\d{2,4}$` must match the whole string
(no candidate contains a newline, so `$` is end-of-string here). -/
def validate_date (d : List Char) : Bool :=
  (dateCap (α := Unit) none d (fun _ _ rest => if rest = [] then some () else none)).isSome

/-- `extract_document_date` (lines 188-204): `findall` each date
pattern in order and return the first stripped candidate passing
`_validate_date`. -/
def extract_document_date (text : List Char) : Option (List Char) :=
  [["DC".data, "DATE".data], ["INVOICE".data, "DATE".data], ["DATE".data]].findSome?
    (fun ws =>
      (findAll (dateStep ws) none text).findSome? (fun m =>
        let date_str := pystrip m
        if validate_date date_str then some date_str else none))

/-- The capture `([\d,]+\.?\d{0,2})` of the amount patterns (CPS). -/
def amountCap {α : Type} (prev : Option Char) (s : List Char)
    (k : List Char → Option Char → List Char → Option α) : Option α :=
  repAtLeastCap digitCommaCls 1 prev s (fun c1 p1 s1 =>
  repBoundedCap (fun c => c = '.') 0 1 p1 s1 (fun c2 p2 s2 =>
  repBoundedCap digitCls 0 2 p2 s2 (fun c3 p3 s3 =>
    k (c1 ++ c2 ++ c3) p3 s3)))

/-- An amount pattern `W1\s*W2\s*…[:\-\s]*[\$?€]?\s*(amount)`. -/
def amountStep (ws : List (List Char)) : Pat := fun prev s =>
  seqWordsCI ws prev s (fun p1 s1 =>
  starCls sepCls p1 s1 (fun p2 s2 =>
  optCls currencyCls p2 s2 (fun p3 s3 =>
  starCls pyIsSpace p3 s3 (fun p4 s4 =>
  amountCap p4 s4 (fun cap p5 s5 => some (cap, p5, s5))))))

/-- Sign parsing of a Python `float()` literal. -/
def parseSign : List Char → (Bool × List Char)
  | '-' :: r => (true, r)
  | '+' :: r => (false, r)
  | r => (false, r)

/-- Digit-string value. -/
def digitsToNat (ds : List Char) : Nat :=
  ds.foldl (fun n c => 10 * n + (c.toNat - '0'.toNat)) 0

/-- Decimal `float()` parsing, exactly: optional sign, integer digits,
optional dot, fractional digits, at least one digit in total, nothing
else; the parsed value is `(-1)^neg * n / 10^fracLen` for the returned
`(neg, n, fracLen)`.  Exponent, infinity and NaN literals are not
modelled: the amount captures (digits, commas, one dot) cannot contain
them.  The candidates are plain decimal numerals, for which Python's
float comparison against the bounds 0 and 10^9 agrees with the exact
rational comparison used below. -/
def parseDecimal (s0 : List Char) : Option (Bool × Nat × Nat) :=
  let s := pystrip s0
  let (neg, s1) := parseSign s
  let d1 := s1.takeWhile digitCls
  let r1 := s1.dropWhile digitCls
  let mk : List Char → Nat → Option (Bool × Nat × Nat) := fun ds fracLen =>
    if ds = [] then none else some (neg, digitsToNat ds, fracLen)
  match r1 with
  | [] => mk d1 0
  | '.' :: r2 =>
    let d2 := r2.takeWhile digitCls
    let r3 := r2.dropWhile digitCls
    if r3 = [] then mk (d1 ++ d2) d2.length else none
  | _ => none

/-- `_validate_amount` (lines 231-237): parse as a float and require a
value strictly between 0 and one billion.  In exact arithmetic,
`0 < (-1)^neg * n / 10^f < 10^9` holds exactly when the sign is
positive, `n` is positive, and `n < 10^9 * 10^f`. -/
def validate_amount (amount : List Char) : Bool :=
  match parseDecimal amount with
  | some (neg, n, fracLen) =>
    !neg && decide (0 < n) && decide (n < 1000000000 * 10 ^ fracLen)
  | none => false

/-- The label word lists of `extract_total_amount`, in source order:
the generic `TOTAL` pattern is listed first, then `GRAND\s*TOTAL`, then
`TOTAL\s*VALUE` (lines 215-219). -/
def totalPatternLabels : List (List (List Char)) :=
  [[ "TOTAL".data ],
   [ "GRAND".data, "TOTAL".data ],
   [ "TOTAL".data, "VALUE".data ]]

/-- Scan of one amount pattern: the first `findall` candidate that,
stripped and with commas removed, validates. -/
def firstValidAmount (cands : List (List Char)) : Option (List Char) :=
  cands.findSome? (fun m =>
    let amount := pyReplace ",".data [] (pystrip m)
    if validate_amount amount then some amount else none)

/-- `extract_total_amount` (lines 213-229). -/
def extract_total_amount (text : List Char) : Option (List Char) :=
  totalPatternLabels.findSome? (fun ws =>
    firstValidAmount (findAll (amountStep ws) none text))

/-- A customer pattern `W1\s*W2\s*…[:\-\s]*\n?\s*([^\n]+)`. -/
def customerStep (ws : List (List Char)) : Pat := fun prev s =>
  seqWordsCI ws prev s (fun p1 s1 =>
  starCls sepCls p1 s1 (fun p2 s2 =>
  optCls (fun c => c = '\n') p2 s2 (fun p3 s3 =>
  starCls pyIsSpace p3 s3 (fun p4 s4 =>
  repAtLeastCap notNlCls 1 p4 s4 (fun cap p5 s5 => some (cap, p5, s5))))))

/-- The honorific removal
`re.sub(r'^\s*(M/s|M/s\.|M/s\s|TO\s*:)\s*', '', customer, IGNORECASE)`:
anchored at the start, so at most one replacement; alternatives tried
in order. -/
def stripHonorific (s : List Char) : List Char :=
  let attempt : Option (List Char) :=
    starCls pyIsSpace none s (fun p1 s1 =>
      altCap
        [fun p s k => litCICap "M/s".data p s k,
         fun p s k => litCICap "M/s.".data p s k,
         fun p s k =>
           litCICap "M/s".data p s (fun c1 p2 s2 =>
             repBoundedCap pyIsSpace 1 1 p2 s2 (fun c2 p3 s3 => k (c1 ++ c2) p3 s3)),
         fun p s k =>
           litCICap "TO".data p s (fun c1 p2 s2 =>
             repAtLeastCap pyIsSpace 0 p2 s2 (fun c2 p3 s3 =>
               litCICap ":".data p3 s3 (fun c3 p4 s4 => k (c1 ++ c2 ++ c3) p4 s4)))]
        p1 s1 (fun _ p2 s2 =>
          starCls pyIsSpace p2 s2 (fun _ rest => some rest)))
  attempt.getD s

/-- `extract_customer_name` (lines 239-255); the `lines` parameter of
the source method is unused there and omitted here. -/
def extract_customer_name (text : List Char) : Option (List Char) :=
  [["TO".data], ["BILL".data, "TO".data], ["CUSTOMER".data]].findSome? (fun ws =>
    match searchFirst (customerStep ws) none text with
    | some m =>
      let customer := stripHonorific (pystrip m)
      if customer ≠ [] && customer.length > 3 then some customer else none
    | none => none)

/-- Pattern `THROUGH[:\-\s]*([^\n]+)` / `DISPATCH\s*MODE[:\-\s]*([^\n]+)`. -/
def dispatchLabelStep (ws : List (List Char)) : Pat := fun prev s =>
  seqWordsCI ws prev s (fun p1 s1 =>
  starCls sepCls p1 s1 (fun p2 s2 =>
  repAtLeastCap notNlCls 1 p2 s2 (fun cap p3 s3 => some (cap, p3, s3))))

/-- Pattern `BY\s*([^\n,]+)`. -/
def dispatchByStep : Pat := fun prev s =>
  litCI "BY".data prev s (fun p1 s1 =>
  starCls pyIsSpace p1 s1 (fun p2 s2 =>
  repAtLeastCap notNlCommaCls 1 p2 s2 (fun cap p3 s3 => some (cap, p3, s3))))

/-- `extract_dispatch_mode` (lines 257-271). -/
def extract_dispatch_mode (text : List Char) : Option (List Char) :=
  [dispatchLabelStep [["THROUGH".data]].head!,
   dispatchLabelStep ["DISPATCH".data, "MODE".data],
   dispatchByStep].findSome? (fun pat =>
    match searchFirst pat none text with
    | some m =>
      let mode := pystrip m
      if mode ≠ [] && mode.length > 2 then some mode else none
    | none => none)

/-- The quantity test of `extract_line_items`:
`re.search(r'\d+[,.]?\d*\s*(NOS|PCS|UNITS|QTY)', line.upper())`. -/
def lineItemQtyStep : Pat := fun prev s =>
  repAtLeastCap digitCls 1 prev s (fun _ p1 s1 =>
  repCls commaDotCls 0 1 p1 s1 (fun p2 s2 =>
  starCls digitCls p2 s2 (fun p3 s3 =>
  starCls pyIsSpace p3 s3 (fun p4 s4 =>
  altCap
    [fun p s k => litCICap "NOS".data p s k,
     fun p s k => litCICap "PCS".data p s k,
     fun p s k => litCICap "UNITS".data p s k,
     fun p s k => litCICap "QTY".data p s k]
    p4 s4 (fun cap p5 s5 => some (cap, p5, s5))))))

/-- `extract_line_items` (lines 273-286): a raw line qualifies when the
quantity pattern matches its uppercased form, its length exceeds 10, it
contains no aggregate keyword, and it contains a letter; qualifying
lines are stripped, in source order. -/
def extract_line_items (text : List Char) : List (List Char) :=
  (splitOnChar '\n' text).filterMap (fun line =>
    let u := line.map Char.toUpper
    if (searchFirst lineItemQtyStep none u).isSome &&
       line.length > 10 &&
       !(["TOTAL", "SUBTOTAL", "GRAND"].any (fun w => isSubstringOf (w : String).data u)) &&
       line.any Char.isAlpha
    then some (pystrip line) else none)

/-- `_extract_addresses` (lines 296-305). -/
def addressKeywords : List String :=
  ["ROAD", "STREET", "AVENUE", "LANE", "POST", "PIN", "CITY", "STATE"]

/-- Lines containing an address keyword, stripped. -/
def extract_addresses (lines : List (List Char)) : List (List Char) :=
  lines.filterMap (fun line =>
    if addressKeywords.any (fun kw => isSubstringOf kw.data (line.map Char.toUpper))
    then some (pystrip line) else none)

/-- Phone pattern `[\+\(]?[1-9][0-9 .\-\(\)]{8,}[0-9]` (whole match,
no group). -/
def phoneStep : Pat := fun prev s =>
  repBoundedCap phoneOpenCls 0 1 prev s (fun c1 p1 s1 =>
  repBoundedCap nonzeroDigitCls 1 1 p1 s1 (fun c2 p2 s2 =>
  repAtLeastCap phoneBodyCls 8 p2 s2 (fun c3 p3 s3 =>
  repBoundedCap digitCls 1 1 p3 s3 (fun c4 p4 s4 =>
    some (c1 ++ c2 ++ c3 ++ c4, p4, s4)))))

/-- E-mail pattern
`\b[A-Za-z0-9._%+-]+@[A-Za-z0-9.-]+\.[A-Z|a-z]{2,}\b` (whole match,
no group). -/
def emailStep : Pat := fun prev s =>
  wordB prev s (fun p0 s0 =>
  repAtLeastCap emailLocalCls 1 p0 s0 (fun c1 p1 s1 =>
  litCICap "@".data p1 s1 (fun c2 p2 s2 =>
  repAtLeastCap emailDomCls 1 p2 s2 (fun c3 p3 s3 =>
  litCICap ".".data p3 s3 (fun c4 p4 s4 =>
  repAtLeastCap emailTldCls 2 p4 s4 (fun c5 p5 s5 =>
  wordB p5 s5 (fun p6 s6 => some (c1 ++ c2 ++ c3 ++ c4 ++ c5, p6, s6))))))))

/-- The first three phone matches (`_extract_contacts`, lines 307-323). -/
def contactPhones (text : List Char) : List (List Char) :=
  (findAll phoneStep none text).take 3

/-- The first three e-mail matches. -/
def contactEmails (text : List Char) : List (List Char) :=
  (findAll emailStep none text).take 3

/-- `_extract_with_patterns` (lines 345-351): first `re.search` hit,
stripped, no further validation. -/
def extract_with_patterns (pats : List Pat) (text : List Char) : Option (List Char) :=
  pats.findSome? (fun p => (searchFirst p none text).map pystrip)

/-- `extract_purpose` (lines 326-330): `PURPOSE[:\-\s]*([^\n]+)`. -/
def extract_purpose (text : List Char) : Option (List Char) :=
  extract_with_patterns [dispatchLabelStep [["PURPOSE".data]].head!] text

/-- `extract_party_dc_number` (lines 332-337). -/
def extract_party_dc_number (text : List Char) : Option (List Char) :=
  extract_with_patterns
    [labeledTokenStep ["PARTY".data, "DC".data] docnumCls,
     labeledTokenStep ["PARTY".data, "DC".data, "NO".data] docnumCls] text

/-- `extract_party_dc_date` (lines 339-343). -/
def extract_party_dc_date (text : List Char) : Option (List Char) :=
  extract_with_patterns [dateStep ["PARTY".data, "DC".data, "DATE".data]] text

end DocumentExtractor

/-- A Python value as stored in the extracted-data dictionary:
`None`, a string, a list, or a nested dictionary (insertion-ordered). -/
inductive PyVal where
  | pynone : PyVal
  | pystr : List Char → PyVal
  | pylist : List PyVal → PyVal
  | pydict : List (String × PyVal) → PyVal
deriving Repr

namespace DocumentExtractor

mutual

/-- One value of `clean_extracted_data` (lines 89-103): `None` becomes
the sentinel, a dictionary is cleaned recursively, a list is kept as it
is (an empty list stays an empty list), a blank string becomes the
sentinel, anything else is kept. -/
def cleanValue : PyVal → PyVal
  | .pynone => .pystr sentinel
  | .pydict d => .pydict (clean_extracted_data d)
  | .pylist l => if l.isEmpty then .pylist [] else .pylist l
  | .pystr s => if pystrip s = [] then .pystr sentinel else .pystr s

/-- `clean_extracted_data`: clean every value, keeping keys and their
order. -/
def clean_extracted_data : List (String × PyVal) → List (String × PyVal)
  | [] => []
  | (k, v) :: rest => (k, cleanValue v) :: clean_extracted_data rest

end

/-- An optional extractor result as the Python value it is stored as. -/
def optStr : Option (List Char) → PyVal
  | some s => .pystr s
  | none => .pynone

/-- The dictionary assembled by `extract_document_info` (lines 37-63)
before cleaning: the common fields, plus the three Delivery
Challan-specific fields when classification selected that type. -/
def assembleRecord (text : List Char) : List (String × PyVal) :=
  let lines := clean_text_lines (splitOnChar '\n' text)
  let doc_type := detect_document_type text
  let base : List (String × PyVal) :=
    [("document_type", .pystr doc_type.data),
     ("supplier_name", optStr (extract_supplier_name lines)),
     ("gst_no", optStr (extract_gst_number text)),
     ("document_number", optStr (extract_document_number text doc_type)),
     ("document_date", optStr (extract_document_date text)),
     ("total_amount", optStr (extract_total_amount text)),
     ("customer_name", optStr (extract_customer_name text)),
     ("dispatch_mode", optStr (extract_dispatch_mode text)),
     ("line_items", .pylist ((extract_line_items text).map .pystr)),
     ("metadata", .pydict
       [("addresses", .pylist ((extract_addresses lines).map .pystr)),
        ("contacts", .pydict
          [("phones", .pylist ((contactPhones text).map .pystr)),
           ("emails", .pylist ((contactEmails text).map .pystr))])])]
  if doc_type = "Delivery Challan" then
    base ++ [("purpose", optStr (extract_purpose text)),
             ("party_dc_number", optStr (extract_party_dc_number text)),
             ("party_dc_date", optStr (extract_party_dc_date text))]
  else base

/-- `extract_document_info` (lines 15-73), from the point at which the
file-system and pdfplumber effects are resolved: `fileExists` is the
`os.path.exists` test, `text` is the result of
`extract_text_from_pdf` (which catches its own exceptions).  A missing
file or a whitespace-only text yields `None`; otherwise the assembled
record is cleaned and returned. -/
def extract_document_info_fromText (fileExists : Bool) (text : List Char) :
    Option (List (String × PyVal)) :=
  if fileExists = false then none
  else if pystrip text = [] then none
  else some (clean_extracted_data (assembleRecord text))

/-- Outcome of one `page.extract_text()` call: a returned value
(`None` or a string), or a raised exception. -/
inductive PageRead where
  | ok : Option (List Char) → PageRead
  | err : PageRead
deriving Repr, DecidableEq

/-- Text contributed by one page in
`DocumentExtractor.extract_text_from_pdf` (lines 75-87): a truthy
(non-`None`, non-empty) page text followed by a newline, else nothing. -/
def docChunk : Option (List Char) → List Char
  | some s => if s = [] then [] else s ++ ['\n']
  | none => []

/-- The page loop of `DocumentExtractor.extract_text_from_pdf`: a
raised per-page exception escapes the loop into the handler, which
returns the empty string, discarding the text already accumulated. -/
def docPages : List PageRead → Option (List Char)
  | [] => some []
  | .ok t :: rest => (docPages rest).map (fun tail => docChunk t ++ tail)
  | .err :: _ => none

/-- Text contributed by one page, as a total function on `PageRead`
(the `err` case is irrelevant: it aborts the whole read). -/
def docPageText : PageRead → List Char
  | .ok t => docChunk t
  | .err => []

/-- `DocumentExtractor.extract_text_from_pdf` (lines 75-87):
`opened` is whether `pdfplumber.open` succeeded.  On failure to open,
or on any per-page exception, the result is the empty string. -/
def extract_text_from_pdf (opened : Bool) (pages : List PageRead) : List Char :=
  if opened = false then [] else (docPages pages).getD []

end DocumentExtractor

namespace App

/-- Text contributed by one page in `app.py`'s `extract_text_from_pdf`
(lines 48-60): `page.extract_text() or ""`, with a raised per-page
exception logged and skipped. -/
def appPageText : DocumentExtractor.PageRead → List Char
  | .ok t => t.getD []
  | .err => []

/-- The page loop of `app.py`'s `extract_text_from_pdf`: concatenation
with no separator, skipping failed pages. -/
def appPages : List DocumentExtractor.PageRead → List Char
  | [] => []
  | p :: rest => appPageText p ++ appPages rest

/-- `extract_text_from_pdf` from `src/app.py` (lines 48-60): `opened`
is whether `pdfplumber.open` succeeded; on failure the accumulated
text (then still empty) is returned. -/
def extract_text_from_pdf (opened : Bool) (pages : List DocumentExtractor.PageRead) :
    List Char :=
  if opened = false then [] else appPages pages

/-- Concatenation of the per-page texts of `is_image_pdf` (line 24):
`"".join(page.extract_text() or "" for page in reader.pages)`. -/
def pagesText (pages : List (Option (List Char))) : List Char :=
  (pages.map (fun p => p.getD [])).flatten

/-- `is_image_pdf` from `src/app.py` (lines 19-28): `opened` is whether
the `PyPDF2.PdfReader` construction succeeded.  Any exception — a
failed open, or the zero-page division — lands in the handler and
yields `True`; otherwise the test is
`len(text.strip()) / len(reader.pages) < 30` (exact rational division
models the float division: the operands are machine integers far too
small for the rounding of the quotient to cross the threshold). -/
def is_image_pdf (opened : Bool) (pages : List (Option (List Char))) : Bool :=
  if opened = false then true
  else if pages = [] then true
  else decide (((pystrip (pagesText pages)).length : ℚ) / (pages.length : ℚ) < 30)

/-- One label alternative of `extract_gst_number`'s combined pattern
(`gstin`, `gst\s*no`, `gst\s*number`, `gst\s*#`, `gst\s*num`,
`gst\s*registration\s*no`), in source order, capturing. -/
def gstLabelBranches :
    List (Option Char → List Char →
      (List Char → Option Char → List Char → Option (List Char × Option Char × List Char)) →
      Option (List Char × Option Char × List Char)) :=
  [fun p s k => seqWordsCICap ["GSTIN".data] p s k,
   fun p s k => seqWordsCICap ["GST".data, "NO".data] p s k,
   fun p s k => seqWordsCICap ["GST".data, "NUMBER".data] p s k,
   fun p s k => seqWordsCICap ["GST".data, "#".data] p s k,
   fun p s k => seqWordsCICap ["GST".data, "NUM".data] p s k,
   fun p s k => seqWordsCICap ["GST".data, "REGISTRATION".data, "NO".data] p s k]

/-- The GST token pattern `\b\d{2}[a-z0-9]{10}[a-z0-9]{3}\b` of
`src/app.py` (line 121), capturing the whole token. -/
def appGstTokenCap {α : Type} (prev : Option Char) (s : List Char)
    (k : List Char → Option Char → List Char → Option α) : Option α :=
  wordB prev s (fun p0 s0 =>
  repBoundedCap digitCls 2 2 p0 s0 (fun c1 p1 s1 =>
  repBoundedCap alnumCls 10 10 p1 s1 (fun c2 p2 s2 =>
  repBoundedCap alnumCls 3 3 p2 s2 (fun c3 p3 s3 =>
  wordB p3 s3 (fun p4 s4 => k (c1 ++ c2 ++ c3) p4 s4)))))

/-- The GST token pattern as a search pattern (whole match = token). -/
def appGstTokenStep : Pat := fun prev s =>
  appGstTokenCap prev s (fun cap p r => some (cap, p, r))

/-- The combined pattern
`(label1|…)\s*[:\-]?\s*\b\d{2}[a-z0-9]{10}[a-z0-9]{3}\b` of
`extract_gst_number` (line 122); the match value is `group(0)`, the
whole matched text. -/
def appGstCombinedStep : Pat := fun prev s =>
  altCap gstLabelBranches prev s (fun c1 p1 s1 =>
    repAtLeastCap pyIsSpace 0 p1 s1 (fun c2 p2 s2 =>
    repBoundedCap colonDashCls 0 1 p2 s2 (fun c3 p3 s3 =>
    repAtLeastCap pyIsSpace 0 p3 s3 (fun c4 p4 s4 =>
    appGstTokenCap p4 s4 (fun c5 p5 s5 =>
      some (c1 ++ c2 ++ c3 ++ c4 ++ c5, p5, s5))))))

/-- The fallback branch of `extract_gst_number` (lines 128-131):
search the token pattern over the whole text. -/
def gstFallback (text : List Char) : Option (List Char) :=
  match searchFirst appGstTokenStep none text with
  | some g => clean_gst_number g
  | none => none

/-- `extract_gst_number` from `src/app.py` (lines 114-131): newlines
and carriage returns become spaces, the text is lowercased; the
label-anchored combined pattern is searched first and the token is
re-extracted from its `group(0)` and cleaned; otherwise the first bare
token anywhere is cleaned; otherwise `None`. -/
def extract_gst_number (text0 : List Char) : Option (List Char) :=
  let text := (text0.map (fun c => if c = '\n' || c = '\r' then ' ' else c)).map Char.toLower
  match searchFirst appGstCombinedStep none text with
  | some group0 =>
    match searchFirst appGstTokenStep none group0 with
    | some g => clean_gst_number g
    | none => gstFallback text
  | none => gstFallback text

end App

/-- The total-amount extractor as the specification sentence describes
it.  Modelled from the spec: identical to
`DocumentExtractor.extract_total_amount` except that the stated
pattern order is `GRAND TOTAL`, then `TOTAL`, then `TOTAL VALUE`,
whereas the source lists the generic `TOTAL` pattern first. -/
def specOrderTotalAmount (text : List Char) : Option (List Char) :=
  [[ "GRAND".data, "TOTAL".data ],
   [ "TOTAL".data ],
   [ "TOTAL".data, "VALUE".data ]].findSome? (fun ws =>
    DocumentExtractor.firstValidAmount (findAll (DocumentExtractor.amountStep ws) none text))

/-! Helper lemmas. -/

/-- A successful `findSome?` is witnessed by a member of the list. -/
theorem findSome?_eq_some_mem {α β : Type} {f : α → Option β} {b : β} :
    ∀ {l : List α}, l.findSome? f = some b → ∃ a, a ∈ l ∧ f a = some b := by
  intro l
  induction l with
  | nil => intro h; simp [List.findSome?] at h
  | cons a as ih =>
    intro h
    rw [List.findSome?_cons] at h
    cases hfa : f a with
    | some c =>
      rw [hfa] at h
      exact ⟨a, List.mem_cons_self a as, hfa.trans h⟩
    | none =>
      rw [hfa] at h
      obtain ⟨x, hx, hfx⟩ := ih h
      exact ⟨x, List.mem_cons_of_mem a hx, hfx⟩

/-- Every character of a `pyReplaceAux` result comes from the
replacement string or from the subject. -/
theorem mem_pyReplaceAux {pat rep : List Char} :
    ∀ (s : List Char) (skip : Nat) {c : Char},
      c ∈ pyReplaceAux pat rep skip s → c ∈ rep ∨ c ∈ s := by
  intro s
  induction s with
  | nil => intro skip c hc; cases skip <;> simp [pyReplaceAux] at hc
  | cons d rest ih =>
    intro skip c hc
    cases skip with
    | succ n =>
      rw [pyReplaceAux] at hc
      rcases ih n hc with h | h
      · exact Or.inl h
      · exact Or.inr (List.mem_cons_of_mem d h)
    | zero =>
      rw [pyReplaceAux] at hc
      split at hc
      · rcases List.mem_append.mp hc with h | h
        · exact Or.inl h
        · rcases ih _ h with h1 | h1
          · exact Or.inl h1
          · exact Or.inr (List.mem_cons_of_mem d h1)
      · rcases List.mem_cons.mp hc with h | h
        · exact Or.inr (h ▸ List.mem_cons_self d rest)
        · rcases ih _ h with h1 | h1
          · exact Or.inl h1
          · exact Or.inr (List.mem_cons_of_mem d h1)

/-- Every character of a `pyReplace` result comes from the replacement
string or from the subject. -/
theorem mem_pyReplace {pat rep s : List Char} {c : Char}
    (h : c ∈ pyReplace pat rep s) : c ∈ rep ∨ c ∈ s :=
  mem_pyReplaceAux s 0 h

/-- Replacing the single character `p` by a string not containing it
removes every occurrence of `p`. -/
theorem not_mem_pyReplace_single {p : Char} {rep : List Char} (hp : p ∉ rep) :
    ∀ (s : List Char), p ∉ pyReplace [p] rep s := by
  have key : ∀ (s : List Char), p ∉ pyReplaceAux [p] rep 0 s := by
    intro s
    induction s with
    | nil => simp [pyReplaceAux]
    | cons d rest ih =>
      rw [pyReplaceAux]
      split
      · intro hmem
        rcases List.mem_append.mp hmem with h | h
        · exact hp h
        · exact ih h
      · rename_i hcond
        intro hmem
        rcases List.mem_cons.mp hmem with h | h
        · apply hcond
          subst h
          simp [List.isPrefixOf]
        · exact ih h
  exact key

/-! The claims. -/

/-- Claim C5: for every non-empty candidate tax-ID string,
`clean_gst_number` uppercases it, strips non-alphanumerics, applies the
OCR-confusion substitutions (letter O to digit 0 among them), and
returns the corrected string even when it fails the strict 15-character
structural grammar — validation never withholds the value.  In
particular `27AAPFU09O9F1ZV` is corrected to `27AAPFU0909F1ZV`, and
`GARBAGE##` is corrected to `GARBAGE` and returned although it fails
the grammar. -/
theorem claim_c5_gst_cleaning :
    (∀ cs : List Char, cs ≠ [] →
      App.clean_gst_number cs = some (App.gstCorrect (App.gstNormalize cs))) ∧
    App.clean_gst_number "27AAPFU09O9F1ZV".data = some "27AAPFU0909F1ZV".data ∧
    App.gstValidGrammar "GARBAGE".data = false ∧
    App.clean_gst_number "GARBAGE##".data = some "GARBAGE".data := by
  refine ⟨?_, rfl, rfl, rfl⟩
  intro cs h
  simp [App.clean_gst_number, h]

/-- Witness for C5: the general statement evaluated at the one-letter
input `A`. -/
theorem claim_c5_gst_cleaning_witness :
    App.clean_gst_number "A".data = some (App.gstCorrect (App.gstNormalize "A".data)) :=
  claim_c5_gst_cleaning.1 "A".data (by decide)

/-- Claim C10: for every non-empty input, the cleaned tax-ID contains
no letter `O` and no letter `I`: the substitution pass replaces every
occurrence by a digit before validation, so any tax ID whose true value
contains them is always altered. -/
theorem claim_c10_no_confusable_letters :
    ∀ cs : List Char, cs ≠ [] →
      ∃ r, App.clean_gst_number cs = some r ∧ 'O' ∉ r ∧ 'I' ∉ r := by
  intro cs h
  refine ⟨App.gstCorrect (App.gstNormalize cs), by simp [App.clean_gst_number, h], ?_, ?_⟩
  · have hstep : App.gstCorrect (App.gstNormalize cs) =
        pyReplace "Z3".data "ZJ".data
          (pyReplace "I".data "1".data
            (pyReplace "O".data "0".data (App.gstNormalize cs))) := rfl
    rw [hstep]
    intro hmem
    rcases mem_pyReplace hmem with h1 | h1
    · exact absurd h1 (by decide)
    · rcases mem_pyReplace h1 with h2 | h2
      · exact absurd h2 (by decide)
      · exact not_mem_pyReplace_single (by decide) _ h2
  · have hstep : App.gstCorrect (App.gstNormalize cs) =
        pyReplace "Z3".data "ZJ".data
          (pyReplace "I".data "1".data
            (pyReplace "O".data "0".data (App.gstNormalize cs))) := rfl
    rw [hstep]
    intro hmem
    rcases mem_pyReplace hmem with h1 | h1
    · exact absurd h1 (by decide)
    · exact not_mem_pyReplace_single (by decide) _ h1

/-- Witness for C10: the general statement evaluated at the spec's own
OCR-misread token. -/
theorem claim_c10_no_confusable_letters_witness :
    ∃ r, App.clean_gst_number "27AAPFU09O9F1ZV".data = some r ∧ 'O' ∉ r ∧ 'I' ∉ r :=
  claim_c10_no_confusable_letters "27AAPFU09O9F1ZV".data (by decide)

/-- Counterexample to C6 as stated: the cleanup does not return
`"ACME INDUSTRIES LTD."` — the trailing period is itself in the
trailing-junk class `[^A-Za-z0-9\s\-\)&]` and is stripped together with
the `###`. -/
theorem claim_c6_counterexample :
    App.clean_supplier_name "***ACME INDUSTRIES LTD.###".data
      = some "ACME INDUSTRIES LTD".data ∧
    "ACME INDUSTRIES LTD".data ≠ "ACME INDUSTRIES LTD.".data :=
  ⟨rfl, by decide⟩

/-- Claim C6 (amended): the input `***ACME INDUSTRIES LTD.###`
normalizes to `ACME INDUSTRIES LTD` — the leading junk and the whole
trailing run `.###` (period included) are stripped, no trailing-letter
truncation applies (the final `D` is preceded by a letter, so
`\b[a-zA-Z]$` does not match), and the cleanup never withholds a
non-empty input. -/
theorem claim_c6_supplier_cleanup :
    App.clean_supplier_name "***ACME INDUSTRIES LTD.###".data
      = some "ACME INDUSTRIES LTD".data ∧
    App.trailingSingleLetter "ACME INDUSTRIES LTD".data = false ∧
    (∀ n : List Char, n ≠ [] → (App.clean_supplier_name n).isSome = true) := by
  refine ⟨rfl, by decide, ?_⟩
  intro n h
  simp [App.clean_supplier_name, h]

/-- Witness for C6: the general no-withholding component evaluated at
the one-letter input `X`. -/
theorem claim_c6_supplier_cleanup_witness :
    (App.clean_supplier_name "X".data).isSome = true :=
  claim_c6_supplier_cleanup.2.2 "X".data (by decide)

/-- Claim C8: tax-ID extraction is the identity on an already-valid
value: on the text `GSTIN: 27AAPFU0939F1ZV` both implementations
return exactly `27AAPFU0939F1ZV`, unchanged by the OCR-correction and
validation passes. -/
theorem claim_c8_gst_roundtrip :
    App.extract_gst_number "GSTIN: 27AAPFU0939F1ZV".data
      = some "27AAPFU0939F1ZV".data ∧
    DocumentExtractor.extract_gst_number "GSTIN: 27AAPFU0939F1ZV".data
      = some "27AAPFU0939F1ZV".data :=
  ⟨rfl, rfl⟩

/-- Claim C2: document-type classification is a case-insensitive
substring search over ordered keyword groups with first match winning:
a challan keyword yields `Delivery Challan`; otherwise a tax-invoice
keyword yields `Tax Invoice`; otherwise an invoice keyword yields
`Invoice`; otherwise `Unknown Document`.  In particular a text
containing both `delivery challan` and `tax invoice` classifies as
`Delivery Challan`. -/
theorem claim_c2_classifier :
    (∀ t : List Char,
      (DocumentExtractor.detect_document_type t = "Delivery Challan" ↔
        DocumentExtractor.hasKeyword DocumentExtractor.challanKeywords t = true) ∧
      (DocumentExtractor.detect_document_type t = "Tax Invoice" ↔
        (DocumentExtractor.hasKeyword DocumentExtractor.challanKeywords t = false ∧
         DocumentExtractor.hasKeyword DocumentExtractor.taxInvoiceKeywords t = true)) ∧
      (DocumentExtractor.detect_document_type t = "Invoice" ↔
        (DocumentExtractor.hasKeyword DocumentExtractor.challanKeywords t = false ∧
         DocumentExtractor.hasKeyword DocumentExtractor.taxInvoiceKeywords t = false ∧
         DocumentExtractor.hasKeyword DocumentExtractor.invoiceKeywords t = true)) ∧
      (DocumentExtractor.detect_document_type t = "Unknown Document" ↔
        (DocumentExtractor.hasKeyword DocumentExtractor.challanKeywords t = false ∧
         DocumentExtractor.hasKeyword DocumentExtractor.taxInvoiceKeywords t = false ∧
         DocumentExtractor.hasKeyword DocumentExtractor.invoiceKeywords t = false))) ∧
    DocumentExtractor.detect_document_type
      "boilerplate delivery challan ... tax invoice ...".data = "Delivery Challan" := by
  refine ⟨?_, rfl⟩
  intro t
  cases h1 : DocumentExtractor.hasKeyword DocumentExtractor.challanKeywords t <;>
    cases h2 : DocumentExtractor.hasKeyword DocumentExtractor.taxInvoiceKeywords t <;>
      cases h3 : DocumentExtractor.hasKeyword DocumentExtractor.invoiceKeywords t <;>
        simp [DocumentExtractor.detect_document_type, h1, h2, h3]

/-- Claim C1: every record returned by `extract_document_info` is the
normalisation of an assembled record; normalisation keeps every
declared field key (in order); an absent (`None`) value becomes the
sentinel `Not Available`; an empty or whitespace-only string becomes
the sentinel; a nested mapping is normalised recursively by the same
rule; and a list value is preserved as-is, the empty list included. -/
theorem claim_c1_record_normalization :
    (∀ (b : Bool) (t : List Char) (r : List (String × PyVal)),
      DocumentExtractor.extract_document_info_fromText b t = some r →
      ∃ d, r = DocumentExtractor.clean_extracted_data d) ∧
    (∀ d : List (String × PyVal),
      (DocumentExtractor.clean_extracted_data d).map Prod.fst = d.map Prod.fst) ∧
    DocumentExtractor.cleanValue .pynone = .pystr sentinel ∧
    (∀ s : List Char, pystrip s = [] →
      DocumentExtractor.cleanValue (.pystr s) = .pystr sentinel) ∧
    (∀ d, DocumentExtractor.cleanValue (.pydict d) =
      .pydict (DocumentExtractor.clean_extracted_data d)) ∧
    (∀ l, DocumentExtractor.cleanValue (.pylist l) = .pylist l) ∧
    DocumentExtractor.cleanValue (.pylist []) = .pylist [] := by
  refine ⟨?_, ?_, rfl, ?_, ?_, ?_, rfl⟩
  · intro b t r h
    by_cases hb : b = false
    · simp [DocumentExtractor.extract_document_info_fromText, hb] at h
    · by_cases ht : pystrip t = []
      · simp [DocumentExtractor.extract_document_info_fromText, hb, ht] at h
      · simp [DocumentExtractor.extract_document_info_fromText, hb, ht] at h
        exact ⟨DocumentExtractor.assembleRecord t, h.symm⟩
  · intro d
    induction d with
    | nil => rfl
    | cons kv rest ih =>
      obtain ⟨k, v⟩ := kv
      simp [DocumentExtractor.clean_extracted_data, ih]
  · intro s h
    simp [DocumentExtractor.cleanValue, h]
  · intro d
    rfl
  · intro l
    cases l <;> rfl

/-- Witness for C1: the returned-record component evaluated on the
one-letter text `x`, and the blank-string component on a one-space
string. -/
theorem claim_c1_record_normalization_witness :
    (∃ d, DocumentExtractor.clean_extracted_data
        (DocumentExtractor.assembleRecord "x".data)
      = DocumentExtractor.clean_extracted_data d) ∧
    DocumentExtractor.cleanValue (.pystr " ".data) = .pystr sentinel :=
  ⟨claim_c1_record_normalization.1 true "x".data
      (DocumentExtractor.clean_extracted_data (DocumentExtractor.assembleRecord "x".data)) rfl,
   claim_c1_record_normalization.2.2.2.1 " ".data (by decide)⟩

/-- Counterexample to C3 as stated: the source tries the generic
`TOTAL` pattern first (it is listed before `GRAND\s*TOTAL`), so on a
text with a generic total before a grand total the code returns the
generic one, while the claimed GRAND-TOTAL-first strategy returns the
other value. -/
theorem claim_c3_counterexample :
    DocumentExtractor.extract_total_amount "TOTAL 50\nGRAND TOTAL 100".data
      = some "50".data ∧
    specOrderTotalAmount "TOTAL 50\nGRAND TOTAL 100".data = some "100".data ∧
    ("50".data : List Char) ≠ "100".data :=
  ⟨rfl, rfl, by decide⟩

/-- Claim C3 (amended): the total-amount extractor tries the generic
`TOTAL` label first, then `GRAND TOTAL`, then `TOTAL VALUE`, each
allowing an optional currency symbol; every returned value is a
candidate with thousands-separator commas stripped that validates as a
number strictly between 0 and one billion; `12,34,567.00` is accepted
as `1234567.00` while `-50` and `5000000000` are rejected. -/
theorem claim_c3_total_amount :
    (∀ (t r : List Char), DocumentExtractor.extract_total_amount t = some r →
      DocumentExtractor.validate_amount r = true ∧ ',' ∉ r) ∧
    DocumentExtractor.extract_total_amount "TOTAL 50\nGRAND TOTAL 100".data
      = some "50".data ∧
    DocumentExtractor.extract_total_amount "GRAND TOTAL: 12,34,567.00".data
      = some "1234567.00".data ∧
    DocumentExtractor.validate_amount "-50".data = false ∧
    DocumentExtractor.validate_amount "5000000000".data = false := by
  refine ⟨?_, rfl, rfl, rfl, rfl⟩
  intro t r h
  unfold DocumentExtractor.extract_total_amount at h
  obtain ⟨ws, _, hws⟩ := findSome?_eq_some_mem h
  unfold DocumentExtractor.firstValidAmount at hws
  obtain ⟨m, _, hm⟩ := findSome?_eq_some_mem hws
  dsimp only at hm
  split at hm
  · rename_i hcond
    have hr : r = pyReplace ",".data [] (pystrip m) := (Option.some.inj hm).symm
    subst hr
    exact ⟨hcond, not_mem_pyReplace_single (by decide) _⟩
  · exact absurd hm (by simp)

/-- Witness for C3: the returned-value component evaluated on the text
`TOTAL 5`. -/
theorem claim_c3_total_amount_witness :
    DocumentExtractor.validate_amount "5".data = true ∧ ',' ∉ "5".data :=
  claim_c3_total_amount.1 "TOTAL 5".data "5".data rfl

/-- Counterexample to C4 as stated: on empty extracted text the
pipeline does not produce a record — `extract_document_info` returns
`None` (line 31 of `src/document_extractor.py`). -/
theorem claim_c4_counterexample :
    DocumentExtractor.extract_document_info_fromText true "".data = none := rfl

/-- Claim C4 (amended): when text extraction yields the empty string
(or any whitespace-only string) the pipeline returns absent rather than
a record; the classifier does map empty text to `Unknown Document`,
and had the record been assembled and normalised it would consist of
`Unknown Document` for the document type, the sentinel for every other
string field, and empty sequences for the list fields. -/
theorem claim_c4_empty_text :
    DocumentExtractor.extract_document_info_fromText true "".data = none ∧
    (∀ t : List Char, pystrip t = [] →
      DocumentExtractor.extract_document_info_fromText true t = none) ∧
    DocumentExtractor.detect_document_type "".data = "Unknown Document" ∧
    DocumentExtractor.clean_extracted_data (DocumentExtractor.assembleRecord "".data) =
      [("document_type", .pystr "Unknown Document".data),
       ("supplier_name", .pystr sentinel),
       ("gst_no", .pystr sentinel),
       ("document_number", .pystr sentinel),
       ("document_date", .pystr sentinel),
       ("total_amount", .pystr sentinel),
       ("customer_name", .pystr sentinel),
       ("dispatch_mode", .pystr sentinel),
       ("line_items", .pylist []),
       ("metadata", .pydict
         [("addresses", .pylist []),
          ("contacts", .pydict [("phones", .pylist []), ("emails", .pylist [])])])] := by
  refine ⟨rfl, ?_, rfl, rfl⟩
  intro t h
  simp [DocumentExtractor.extract_document_info_fromText, h]

/-- Witness for C4: the whitespace-only component evaluated on a
one-space text. -/
theorem claim_c4_empty_text_witness :
    DocumentExtractor.extract_document_info_fromText true " ".data = none :=
  claim_c4_empty_text.2.1 " ".data (by decide)

/-- Counterexample to C7 as stated: `app.py`'s extractor concatenates
pages with no newline between them, and `document_extractor.py`'s
extractor turns a single failing page into an empty result instead of
a partial one. -/
theorem claim_c7_counterexample :
    App.extract_text_from_pdf true
      [.ok (some "A".data), .ok (some "B".data)] = "AB".data ∧
    ("AB".data : List Char) ≠ "A\nB".data ∧
    DocumentExtractor.extract_text_from_pdf true
      [.ok (some "A".data), .err, .ok (some "C".data)] = [] ∧
    ([] : List Char) ≠ "A\nC".data :=
  ⟨rfl, by decide, rfl, by decide⟩

/-- Claim C7 (amended): both extractors yield the empty string when
the PDF cannot be opened.  `app.py`'s extractor returns the page texts
concatenated in page order with NO separator and skips failing pages
(partial result).  `document_extractor.py`'s extractor appends a
newline after each truthy page text, but a single failing page aborts
the whole read and yields the empty string rather than a partial
result. -/
theorem claim_c7_page_extraction :
    (∀ ps, App.extract_text_from_pdf false ps = []) ∧
    (∀ ps, DocumentExtractor.extract_text_from_pdf false ps = []) ∧
    (∀ ps, App.extract_text_from_pdf true ps = (ps.map App.appPageText).flatten) ∧
    (∀ ps, DocumentExtractor.PageRead.err ∈ ps →
      DocumentExtractor.extract_text_from_pdf true ps = []) ∧
    (∀ ps, DocumentExtractor.PageRead.err ∉ ps →
      DocumentExtractor.extract_text_from_pdf true ps =
        (ps.map DocumentExtractor.docPageText).flatten) ∧
    App.extract_text_from_pdf true [.ok (some "A".data), .err, .ok (some "C".data)]
      = "AC".data := by
  have hnone : ∀ ps, DocumentExtractor.PageRead.err ∈ ps →
      DocumentExtractor.docPages ps = none := by
    intro ps hmem
    induction ps with
    | nil => simp at hmem
    | cons p rest ih =>
      cases p with
      | ok t =>
        rcases List.mem_cons.mp hmem with h | h
        · exact absurd h (by simp)
        · simp [DocumentExtractor.docPages, ih h]
      | err => simp [DocumentExtractor.docPages]
  have hsome : ∀ ps, DocumentExtractor.PageRead.err ∉ ps →
      DocumentExtractor.docPages ps =
        some ((ps.map DocumentExtractor.docPageText).flatten) := by
    intro ps hmem
    induction ps with
    | nil => rfl
    | cons p rest ih =>
      cases p with
      | ok t =>
        have hrest : DocumentExtractor.PageRead.err ∉ rest :=
          fun hc => hmem (List.mem_cons_of_mem _ hc)
        simp [DocumentExtractor.docPages, ih hrest, DocumentExtractor.docPageText]
      | err => exact absurd (List.mem_cons_self _ _) hmem
  refine ⟨fun ps => rfl, fun ps => rfl, ?_, ?_, ?_, rfl⟩
  · intro ps
    show App.appPages ps = _
    induction ps with
    | nil => rfl
    | cons p rest ih => cases p <;> simp [App.appPages, App.appPageText, ih]
  · intro ps h
    show (DocumentExtractor.docPages ps).getD [] = []
    rw [hnone ps h]
    rfl
  · intro ps h
    show (DocumentExtractor.docPages ps).getD [] = _
    rw [hsome ps h]
    rfl

/-- Witness for C7: the two hypothesis-bearing components evaluated on
a one-page read that fails and a one-page read that succeeds. -/
theorem claim_c7_page_extraction_witness :
    DocumentExtractor.extract_text_from_pdf true [DocumentExtractor.PageRead.err] = [] ∧
    DocumentExtractor.extract_text_from_pdf true [DocumentExtractor.PageRead.ok (some "A".data)]
      = ([DocumentExtractor.PageRead.ok (some "A".data)].map
          DocumentExtractor.docPageText).flatten :=
  ⟨claim_c7_page_extraction.2.2.2.1 [DocumentExtractor.PageRead.err] (by decide),
   claim_c7_page_extraction.2.2.2.2.1 [DocumentExtractor.PageRead.ok (some "A".data)]
     (by decide)⟩

/-- Claim C9: the OCR-need resolver returns true exactly when the
average extractable-character count per page (the stripped
concatenated text's length over the page count) is strictly below 30,
and it defaults to true on any read failure (a PDF that cannot be
opened, or the division-by-zero of a zero-page PDF, both land in the
exception handler). -/
theorem claim_c9_ocr_threshold :
    (∀ ps, App.is_image_pdf false ps = true) ∧
    App.is_image_pdf true [] = true ∧
    (∀ ps : List (Option (List Char)), ps ≠ [] →
      (App.is_image_pdf true ps = true ↔
        ((pystrip (App.pagesText ps)).length : ℚ) / (ps.length : ℚ) < 30)) := by
  refine ⟨fun ps => rfl, rfl, ?_⟩
  intro ps h
  simp [App.is_image_pdf, h]

/-- Witness for C9: the threshold component evaluated on a single page
with empty text. -/
theorem claim_c9_ocr_threshold_witness :
    App.is_image_pdf true [some ([] : List Char)] = true ↔
      ((pystrip (App.pagesText [some ([] : List Char)])).length : ℚ) /
        (([some ([] : List Char)] : List (Option (List Char))).length : ℚ) < 30 :=
  claim_c9_ocr_threshold.2.2 [some []] (by decide)
